import Mathlib

/-!
# Verification of the webrtc media transceiver negotiation layer and RTP relay

A shallow embedding of the negotiation layer (`RTPTransceiver.setSendingTrack`,
`RTPTransceiver.replaceTrack`, `satisfyTypeAndDirection`) and of the two relay
examples (the echo relay and the simulcast relay), with theorems settling the
specification claims about them.

Conventions of the embedding:
* Go pointers to `Track` / `RTPSender` objects become numeric identifiers into
  total maps `TrackId → Track`, `SenderId → RTPSender` carried in a
  `NegotiationState`; `nil` pointers become `Option.none`.
* Go `uint32` / `uint16` arithmetic becomes `Nat` arithmetic with an explicit
  `% 2 ^ 32` / `% 2 ^ 16`; Go `int` becomes `Int`.
* A Go runtime panic (nil dereference, out-of-range index, negative slice
  capacity) becomes an `Option.none` result of the embedded operation.
* Mutex acquisition is erased (the embedding is the sequential meaning of each
  operation); a `mu.Lock()` through a nil pointer still counts as a panic.
-/

namespace Webrtc

/-- `RTPCodecType`: the kind of a track or transceiver. -/
inductive RTPCodecType where
  | audio
  | video
deriving DecidableEq, Repr

/-- `RTPTransceiverDirection`: the four negotiated directions. -/
inductive RTPTransceiverDirection where
  | sendrecv
  | sendonly
  | recvonly
  | inactive
deriving DecidableEq, Repr

abbrev TrackId := Nat
abbrev SenderId := Nat

/-- A `Track`. `hasReceiver` models `track.receiver != nil` (an inbound,
receiver-bound track). `activeSenders` and `totalSenderCount` model the
outbound bookkeeping fields; `totalSenderCount` is a Go `int`, hence `Int`. -/
structure Track where
  kind : RTPCodecType
  ssrc : Nat
  mimeType : String
  hasReceiver : Bool
  activeSenders : List SenderId
  totalSenderCount : Int
deriving DecidableEq, Repr

/-- An `RTPSender`: its bound track pointer and whether its transceiver
backreference is set. -/
structure RTPSender where
  track : Option TrackId
  hasTransceiver : Bool
deriving DecidableEq, Repr

/-- An `RTPTransceiver`: sender slot, receiver slot, direction, stopped flag
and immutable kind. -/
structure RTPTransceiver where
  sender : Option SenderId
  receiver : Option Nat
  direction : RTPTransceiverDirection
  stopped : Bool
  kind : RTPCodecType
deriving DecidableEq, Repr

/-- The mutable state touched by the negotiation-layer operations: one
transceiver plus the heaps of senders and tracks. -/
structure NegotiationState where
  tr : RTPTransceiver
  senders : SenderId → RTPSender
  tracks : TrackId → Track

/-- Point update of a heap map. -/
def setFn {α : Type} (m : Nat → α) (k : Nat) (v : α) : Nat → α :=
  fun x => if x = k then v else m x

/-- The error values surfaced by the embedded operations. `typeMismatch` is
`rtcerr.TypeError`, `invalidState` is `rtcerr.InvalidStateError`,
`renegotiationRequired` is `rtcerr.InvalidModificationError`, `remoteTrack` is
the plain "cannot replace with remote track" error, and `stopFailed` is an
error propagated from `RTPSender.Stop`. -/
inductive RErr where
  | typeMismatch
  | invalidState
  | renegotiationRequired
  | remoteTrack
  | stopFailed
deriving DecidableEq, Repr

/-- Result discriminator of an operation that returned (rather than
panicked). -/
inductive Res where
  | ok
  | fail (e : RErr)
deriving DecidableEq, Repr

/-- `t.setSender(s)`: sets the new sender's transceiver backreference, clears
the current sender's backreference, and stores the new sender in the slot.
In `setSendingTrack` it is only ever called with `none`. -/
def setSender (st : NegotiationState) (s : Option SenderId) : NegotiationState :=
  let st1 :=
    match s with
    | some sid =>
        { st with senders := (setFn st.senders sid
            { st.senders sid with hasTransceiver := true }) }
    | none => st
  let st2 :=
    match st1.tr.sender with
    | some cid =>
        { st1 with senders := (setFn st1.senders cid
            { st1.senders cid with hasTransceiver := false }) }
    | none => st1
  { st2 with tr := { st2.tr with sender := s } }

/-- `t.setSendingTrack(track)`: writes `t.Sender().track = track` (a nil
sender slot is a nil dereference, i.e. `none`), clears the sender slot when
`track` is nil, then runs the direction-transition switch, returning an
`invalidState` failure for any `(track != nil, direction)` pair outside the
table. Note that the field writes happen before the switch. -/
def setSendingTrack (st : NegotiationState) (track : Option TrackId) :
    Option (Res × NegotiationState) :=
  match st.tr.sender with
  | none => none
  | some sid =>
    let st1 := { st with senders := (setFn st.senders sid
        { st.senders sid with track := track }) }
    let st2 := if track.isNone then setSender st1 none else st1
    match track, st2.tr.direction with
    | some _, .recvonly =>
        some (.ok, { st2 with tr := { st2.tr with direction := .sendrecv } })
    | some _, .inactive =>
        some (.ok, { st2 with tr := { st2.tr with direction := .sendonly } })
    | none, .sendrecv =>
        some (.ok, { st2 with tr := { st2.tr with direction := .recvonly } })
    | none, .sendonly =>
        some (.ok, { st2 with tr := { st2.tr with direction := .inactive } })
    | _, _ => some (.fail .invalidState, st2)

/-- Modelled from the spec: `RTPSender.Stop` (whose body is not part of the
sources here) stops the sender's media flow — state outside the negotiation
fields modelled in `NegotiationState` — and may fail. Its success is passed to
`replaceTrack` as the `stopOk` argument; it changes none of the modelled
fields. -/
def senderStopResult (stopOk : Bool) : Option RErr :=
  if stopOk then none else some .stopFailed

/-- `t.replaceTrack(track)`: the live-swap protocol, transcribed from the
source. Result `none` is a Go panic: a nil sender slot dereferenced by
`setSendingTrack`/`sender.Stop()`/`sender.mu.Lock()`, or
`make([]*RTPSender, 0, len(...)-1)` with an empty `activeSenders` slice
(negative capacity). -/
def replaceTrack (st : NegotiationState) (track : Option TrackId)
    (stopOk : Bool) : Option (Res × NegotiationState) :=
  if track.any (fun tid => (st.tracks tid).kind != st.tr.kind) then
    some (.fail .typeMismatch, st)
  else if st.tr.stopped then
    some (.fail .invalidState, st)
  else if st.tr.direction ≠ .sendrecv ∧ st.tr.direction ≠ .sendonly then
    setSendingTrack st track
  else
    match track with
    | none =>
        match st.tr.sender with
        | none => none
        | some _ =>
            match senderStopResult stopOk with
            | some e => some (.fail e, st)
            | none => setSendingTrack st none
    | some tid =>
        match st.tr.sender with
        | none => none
        | some sid =>
          if (st.tracks tid).hasReceiver then
            some (.fail .remoteTrack, st)
          else
            match (st.senders sid).track with
            | some oldId =>
                let old := st.tracks oldId
                if old.mimeType ≠ (st.tracks tid).mimeType then
                  some (.fail .renegotiationRequired, st)
                else if old.activeSenders.length = 0 then
                  none
                else
                  let st3 := { st with tracks := (setFn st.tracks oldId
                      { old with
                        activeSenders := old.activeSenders.filter (fun s => s != sid),
                        totalSenderCount :=
                          old.totalSenderCount - (old.activeSenders.count sid : Int) }) }
                  let newT := st3.tracks tid
                  let st4 := { st3 with tracks := (setFn st3.tracks tid
                      { newT with
                        activeSenders := newT.activeSenders ++ [sid],
                        totalSenderCount := newT.totalSenderCount + 1 }) }
                  some (.ok, { st4 with senders := (setFn st4.senders sid
                      { st4.senders sid with track := some tid }) })
            | none =>
                let newT := st.tracks tid
                let st4 := { st with tracks := (setFn st.tracks tid
                    { newT with
                      activeSenders := newT.activeSenders ++ [sid],
                      totalSenderCount := newT.totalSenderCount + 1 }) }
                some (.ok, { st4 with senders := (setFn st4.senders sid
                    { st4.senders sid with track := some tid }) })

/-! ## Transceiver matcher (`satisfyTypeAndDirection`) -/

/-- The `getPreferredDirections` closure: preference order of local directions
computed from the remote direction (the Go switch falls through to an empty
list for `inactive`). -/
def getPreferredDirections (remoteDirection : RTPTransceiverDirection) :
    List RTPTransceiverDirection :=
  match remoteDirection with
  | .sendrecv => [.recvonly, .sendrecv]
  | .sendonly => [.recvonly, .sendrecv]
  | .recvonly => [.sendonly, .sendrecv]
  | .inactive => []

/-- The inner loop of `satisfyTypeAndDirection` for one candidate direction:
skip entries with the wrong kind or direction; on the first match return it
together with the pool with that element removed
(`append(localTransceivers[:i], localTransceivers[i+1:]...)`). -/
def pluckFirst (remoteKind : RTPCodecType) (d : RTPTransceiverDirection) :
    List RTPTransceiver → Option (RTPTransceiver × List RTPTransceiver)
  | [] => none
  | t :: rest =>
    if t.kind = remoteKind ∧ d = t.direction then some (t, rest)
    else
      match pluckFirst remoteKind d rest with
      | some (r, rest2) => some (r, t :: rest2)
      | none => none

/-- The outer loop of `satisfyTypeAndDirection` over the preferred
directions. -/
def tryDirections (remoteKind : RTPCodecType) (pool : List RTPTransceiver) :
    List RTPTransceiverDirection → Option (RTPTransceiver × List RTPTransceiver)
  | [] => none
  | d :: ds =>
    match pluckFirst remoteKind d pool with
    | some r => some r
    | none => tryDirections remoteKind pool ds

/-- The transceiver built when nothing in the pool matches:
`&RTPTransceiver{kind: remoteKind, direction: inactive}` (all other fields
zero-valued). -/
def newInactiveTransceiver (remoteKind : RTPCodecType) : RTPTransceiver :=
  { sender := none, receiver := none, direction := .inactive,
    stopped := false, kind := remoteKind }

/-- `satisfyTypeAndDirection(remoteKind, remoteDirection, localTransceivers)`:
pluck the first transceiver matching a preferred direction, else synthesize an
inactive one and return the pool unmodified. -/
def satisfyTypeAndDirection (remoteKind : RTPCodecType)
    (remoteDirection : RTPTransceiverDirection)
    (localTransceivers : List RTPTransceiver) :
    RTPTransceiver × List RTPTransceiver :=
  match tryDirections remoteKind localTransceivers
      (getPreferredDirections remoteDirection) with
  | some r => r
  | none => (newInactiveTransceiver remoteKind, localTransceivers)

/-! The matcher restated from the specification's words (§4.2), to compare
with the source transcription above. -/

/-- Follows the spec's words: remote `sendrecv` or `sendonly` prefers local
`recvonly` then `sendrecv`; remote `recvonly` prefers local `sendonly` then
`sendrecv` (no preferences are given for any other remote direction). -/
def specPreferredDirections : RTPTransceiverDirection → List RTPTransceiverDirection
  | .sendrecv => [.recvonly, .sendrecv]
  | .sendonly => [.recvonly, .sendrecv]
  | .recvonly => [.sendonly, .sendrecv]
  | .inactive => []

/-- The index of the first list entry satisfying `p`, if any. -/
def specFindIdx (p : RTPTransceiver → Bool) : List RTPTransceiver → Option Nat
  | [] => none
  | t :: rest => if p t then some 0 else (specFindIdx p rest).map (· + 1)

/-- Follows the spec's words: "scan the pool in its existing order for the
first Transceiver whose kind matches `remoteKind` and whose direction equals
that preferred value; on the first match, remove it from the pool and return
it" — expressed with an index search and an index removal. -/
def specScanPool (remoteKind : RTPCodecType) (d : RTPTransceiverDirection)
    (pool : List RTPTransceiver) :
    Option (RTPTransceiver × List RTPTransceiver) :=
  match specFindIdx (fun t => t.kind == remoteKind && t.direction == d) pool with
  | some i =>
    match pool[i]? with
    | some t => some (t, pool.eraseIdx i)
    | none => none
  | none => none

/-- Follows the spec's words: try each preferred direction in order. -/
def specTryDirections (remoteKind : RTPCodecType) (pool : List RTPTransceiver) :
    List RTPTransceiverDirection → Option (RTPTransceiver × List RTPTransceiver)
  | [] => none
  | d :: ds =>
    match specScanPool remoteKind d pool with
    | some r => some r
    | none => specTryDirections remoteKind pool ds

/-- Follows the spec's words: "if no preferred direction yields a match,
synthesize and return a new Transceiver with the requested kind and direction
`inactive`, leaving the pool unmodified". -/
def specMatch (remoteKind : RTPCodecType)
    (remoteDirection : RTPTransceiverDirection)
    (pool : List RTPTransceiver) : RTPTransceiver × List RTPTransceiver :=
  match specTryDirections remoteKind pool (specPreferredDirections remoteDirection) with
  | some r => r
  | none => (newInactiveTransceiver remoteKind, pool)

/-! ## RTP packets and the two relays -/

/-- An RTP packet, with the fields the relays read or write. `payload`
abstracts the rest of the packet; `extList` models `packet.Extensions` as
`(id, payload)` pairs; `ext` and `extProfile` model `packet.Extension` and
`packet.ExtensionProfile`. -/
structure RTPPacket where
  ssrc : Nat
  sequenceNumber : Nat
  timestamp : Nat
  payload : Nat
  ext : Bool
  extProfile : Nat
  extList : List (Nat × List Nat)
deriving DecidableEq, Repr

/-- An outbound track as the relays see it: its SSRC. -/
structure OutTrack where
  ssrc : Nat
deriving DecidableEq, Repr

/-- The echo relay's packet pump (the `OnTrack` handler loop): for each
inbound packet in arrival order, overwrite its SSRC with `outputTrack1`'s SSRC
(`rtp.SSRC = outputTrack1.SSRC()` — always the *first* outbound track's SSRC)
and write it to `outputTrack`, the fixed output track chosen for this handler
(`outputTrack1` for the first inbound track, `outputTrack2` for the second).
Each element of the result is (track written to, packet as written). -/
def onTrackEchoWrites (outputTrack1 outputTrack : OutTrack)
    (inbound : List RTPPacket) : List (OutTrack × RTPPacket) :=
  inbound.map (fun p => (outputTrack, { p with ssrc := outputTrack1.ssrc }))

/-- Go `uint32` subtraction `a - b` (wrapping). -/
def u32sub (a b : Nat) : Nat := (a + 2 ^ 32 - b % 2 ^ 32) % 2 ^ 32

/-- `rtp.GetExtension(id)`: the payload of header extension `id`, the empty
list when the extension is absent (Go returns a nil slice). -/
def RTPPacket.getExt (p : RTPPacket) (id : Nat) : List Nat :=
  (p.extList.lookup id).getD []

/-- The per-track mutable locals of the simulcast `OnTrack` handler. -/
structure PumpState where
  lastTimestamp : Nat
  isCurrTrack : Bool
deriving DecidableEq, Repr

/-- One iteration of the simulcast `OnTrack` packet loop: rewrite the packet's
timestamp to `0` when `lastTimestamp == 0` and to the wrapping `uint32` delta
from `lastTimestamp` otherwise; store the packet's original timestamp into
`lastTimestamp` (for every packet, dropped or not); then read the stream-id
extension — absence is a panic (`none`); a non-matching first byte clears
`isCurrTrack` and drops the packet; a matching one forwards the rewritten
packet to the shared channel, emitting one PLI if the track was not current.
(`GetExtension` reads the extension list, which the timestamp write does not
touch, so it is read off the incoming packet.)
Result: `(new state, forwarded packet if any, PLI emitted)`. -/
def simulcastPumpStep (ridExtId currRTPStreamID : Nat) (ps : PumpState)
    (p : RTPPacket) : Option (PumpState × Option RTPPacket × Bool) :=
  let p1 := { p with timestamp :=
    if ps.lastTimestamp = 0 then 0 else u32sub p.timestamp ps.lastTimestamp }
  let last1 := p.timestamp
  match p.getExt ridExtId with
  | [] => none
  | b :: _ =>
    if b ≠ currRTPStreamID then
      some ({ lastTimestamp := last1, isCurrTrack := false }, none, false)
    else if ps.isCurrTrack then
      some ({ lastTimestamp := last1, isCurrTrack := true }, some p1, false)
    else
      some ({ lastTimestamp := last1, isCurrTrack := true }, some p1, true)

/-- The simulcast `OnTrack` packet loop over a list of received packets, for a
fixed selected stream id: returns the final state and the packets forwarded to
the shared channel, in order. -/
def simulcastPumpRun (ridExtId currRTPStreamID : Nat) (ps : PumpState) :
    List RTPPacket → Option (PumpState × List RTPPacket)
  | [] => some (ps, [])
  | p :: rest =>
    match simulcastPumpStep ridExtId currRTPStreamID ps p with
    | none => none
    | some (ps1, fwd, _) =>
      match simulcastPumpRun ridExtId currRTPStreamID ps1 rest with
      | none => none
      | some (psF, outs) => some (psF, fwd.toList ++ outs)

/-- The claim's per-packet timestamp-rewrite formula: with `last` the previous
packet's original timestamp (initially `0`), each packet's timestamp becomes
`0` when `last = 0` and the wrapping 32-bit difference otherwise, and `last`
is updated to the packet's original timestamp for every packet. -/
def deltaRewrite (last : Nat) : List RTPPacket → List RTPPacket
  | [] => []
  | p :: rest =>
    { p with timestamp := if last = 0 then 0 else u32sub p.timestamp last } ::
      deltaRewrite p.timestamp rest

/-- Whether a packet's stream-id extension is present with first byte
`rid` — the forwarding condition of the simulcast pump. -/
def ridMatches (ridExtId rid : Nat) (p : RTPPacket) : Bool :=
  match p.getExt ridExtId with
  | [] => false
  | b :: _ => b == rid

/-- One iteration of the simulcast consumer goroutine: add the dequeued
packet's delta timestamp to the running output timestamp (`uint32`, wrapping),
overwrite the SSRC with the outbound track's, assign output sequence number
`i` (`uint16`, wrapping), and clear the extension fields. -/
def consumerStep (outSSRC curr i : Nat) (p : RTPPacket) : Nat × RTPPacket :=
  let curr1 := (curr + p.timestamp) % 2 ^ 32
  (curr1, { p with
      timestamp := curr1, ssrc := outSSRC,
      sequenceNumber := i % 2 ^ 16,
      ext := false, extProfile := 0, extList := [] })

/-- The simulcast consumer goroutine over a list of dequeued packets, with
running output timestamp `curr` and next sequence number `i`. -/
def consumerRun (outSSRC : Nat) : Nat → Nat → List RTPPacket → List RTPPacket
  | _, _, [] => []
  | curr, i, p :: rest =>
    (consumerStep outSSRC curr i p).2 ::
      consumerRun outSSRC (consumerStep outSSRC curr i p).1 (i + 1) rest

/-- The simulcast `OnDataChannel` message handler: the JSON-decoded `rid`
string, as a byte list; the handler executes `currRTPStreamID = v.RID[0]`.
Its result is the new value of `currRTPStreamID` (the only state it touches);
indexing an empty string is a Go panic (`none`). -/
def onRIDMessage (rid : List Nat) : Option Nat :=
  match rid with
  | [] => none
  | b :: _ => some b

/-! ## Concrete states and packets for witnesses and counterexamples -/

/-- Outbound VP8 track currently bound to sender 0. -/
def exTrack0 : Track :=
  { kind := .video, ssrc := 11, mimeType := "video/VP8", hasReceiver := false,
    activeSenders := [0], totalSenderCount := 1 }

/-- Inbound (receiver-bound) VP8 track. -/
def exTrack1 : Track :=
  { kind := .video, ssrc := 12, mimeType := "video/VP8", hasReceiver := true,
    activeSenders := [], totalSenderCount := 0 }

/-- Outbound VP8 track not bound to any sender. -/
def exTrack2 : Track :=
  { kind := .video, ssrc := 13, mimeType := "video/VP8", hasReceiver := false,
    activeSenders := [], totalSenderCount := 0 }

/-- Outbound H264 track not bound to any sender. -/
def exTrack3 : Track :=
  { kind := .video, ssrc := 14, mimeType := "video/H264", hasReceiver := false,
    activeSenders := [], totalSenderCount := 0 }

/-- The track heap of the example states. -/
def exTracks : TrackId → Track := fun tid =>
  if tid = 0 then exTrack0 else if tid = 1 then exTrack1
  else if tid = 2 then exTrack2 else exTrack3

/-- The sender heap of the example states: every sender bound to track 0. -/
def exSenders : SenderId → RTPSender :=
  fun _ => { track := some 0, hasTransceiver := true }

/-- A sending (sendrecv) video transceiver with sender 0 bound to track 0. -/
def exStateSendrecv : NegotiationState :=
  { tr := { sender := some 0, receiver := some 0, direction := .sendrecv,
            stopped := false, kind := .video },
    senders := exSenders, tracks := exTracks }

/-- The same state with direction `recvonly` (not actively sending). -/
def exStateRecvonly : NegotiationState :=
  { exStateSendrecv with
      tr := { exStateSendrecv.tr with direction := .recvonly } }

/-- The state produced by `replaceTrack(nil)` on `exStateRecvonly` (an
InvalidState return that still mutated the sender slot). -/
def exAfterNil : NegotiationState :=
  ((replaceTrack exStateRecvonly none true).map Prod.snd).getD exStateRecvonly

/-- The state produced by the successful swap
`replaceTrack(track 2)` on `exStateSendrecv`. -/
def exAfterSwap : NegotiationState :=
  ((replaceTrack exStateSendrecv (some 2) true).map Prod.snd).getD exStateSendrecv

/-- A sample inbound RTP packet. -/
def exPacket : RTPPacket :=
  { ssrc := 9, sequenceNumber := 1, timestamp := 100, payload := 0,
    ext := false, extProfile := 0, extList := [] }

/-- First outbound track of the echo example. -/
def exOut1 : OutTrack := { ssrc := 5 }

/-- Second outbound track of the echo example. -/
def exOut2 : OutTrack := { ssrc := 7 }

/-- A queued packet with delta timestamp 1. -/
def exDeltaA : RTPPacket := { exPacket with timestamp := 1 }

/-- A queued packet with delta timestamp `2 ^ 32 - 1` (a wrapped `uint32`
difference, e.g. from a reordered input). -/
def exDeltaB : RTPPacket := { exPacket with timestamp := 2 ^ 32 - 1 }

/-- A simulcast inbound packet: stream id `97` in extension 5. -/
def exSimPacketA : RTPPacket :=
  { ssrc := 21, sequenceNumber := 40, timestamp := 1000, payload := 1,
    ext := true, extProfile := 48862, extList := [(5, [97])] }

/-- A second simulcast inbound packet on the same track, stream id `98`. -/
def exSimPacketB : RTPPacket :=
  { ssrc := 21, sequenceNumber := 41, timestamp := 1500, payload := 2,
    ext := true, extProfile := 48862, extList := [(5, [98])] }

/-- A third simulcast inbound packet, stream id `97` again. -/
def exSimPacketC : RTPPacket :=
  { ssrc := 21, sequenceNumber := 42, timestamp := 2500, payload := 3,
    ext := true, extProfile := 48862, extList := [(5, [97])] }

/-- `lastOriginalTimestamp init inputs`: the original timestamp of the last
received packet, `init` when no packet was received — the value held in the
pump's `lastTimestamp` variable after processing `inputs`. -/
def lastOriginalTimestamp (init : Nat) (inputs : List RTPPacket) : Nat :=
  inputs.foldl (fun _ p => p.timestamp) init

/-- The final state and forwarded packets of the concrete simulcast pump run
over `[exSimPacketA, exSimPacketB, exSimPacketC]` with selected stream 97. -/
def exPumpAfter : PumpState × List RTPPacket :=
  (simulcastPumpRun 5 97 { lastTimestamp := 0, isCurrTrack := false }
    [exSimPacketA, exSimPacketB, exSimPacketC]).getD
    ({ lastTimestamp := 0, isCurrTrack := false }, [])

/-- The outbound-track bookkeeping invariant: every track's
`totalSenderCount` equals the length of its `activeSenders` list. -/
def tracksInvariant (st : NegotiationState) : Prop :=
  ∀ tid, (st.tracks tid).totalSenderCount =
    ((st.tracks tid).activeSenders.length : Int)

/-! ## Theorems -/

@[simp] theorem setFn_same {α : Type} (m : Nat → α) (k : Nat) (v : α) :
    setFn m k v k = v := by simp [setFn]

@[simp] theorem setFn_other {α : Type} (m : Nat → α) (k x : Nat) (v : α)
    (h : x ≠ k) : setFn m k v x = m x := by simp [setFn, h]

/-- C4: for every call to `setSendingTrack(track)` (with a non-nil sender
slot, so that the call returns rather than panics), the resulting direction is
exactly the §4.1 table applied to `(previous direction, track-is-null)`:
`recvonly` with non-null track becomes `sendrecv`, `inactive` with non-null
becomes `sendonly`, `sendrecv` with null becomes `recvonly`, `sendonly` with
null becomes `inactive`; every other combination returns an InvalidState
error and the direction field is unchanged. -/
theorem C4_direction_table (st : NegotiationState) (track : Option TrackId)
    (sid : SenderId) (h : st.tr.sender = some sid) :
    ∃ res st2, setSendingTrack st track = some (res, st2) ∧
      (match track, st.tr.direction with
       | some _, .recvonly => res = .ok ∧ st2.tr.direction = .sendrecv
       | some _, .inactive => res = .ok ∧ st2.tr.direction = .sendonly
       | none, .sendrecv => res = .ok ∧ st2.tr.direction = .recvonly
       | none, .sendonly => res = .ok ∧ st2.tr.direction = .inactive
       | _, _ => res = .fail .invalidState ∧ st2.tr.direction = st.tr.direction) := by
  cases htrack : track <;> cases hdir : st.tr.direction <;>
    simp [setSendingTrack, setSender, h, hdir] <;>
    first
      | exact ⟨_, _, ⟨rfl, rfl⟩, rfl, rfl⟩
      | exact ⟨_, _, ⟨rfl, rfl⟩, rfl, hdir⟩

/-- C4 witness: `setSendingTrack(track 2)` on the concrete `recvonly` state
transitions to `sendrecv`. -/
theorem C4_direction_table_witness :
    ∃ res st2, setSendingTrack exStateRecvonly (some 2) = some (res, st2) ∧
      (match (some 2 : Option TrackId), exStateRecvonly.tr.direction with
       | some _, .recvonly => res = .ok ∧ st2.tr.direction = .sendrecv
       | some _, .inactive => res = .ok ∧ st2.tr.direction = .sendonly
       | none, .sendrecv => res = .ok ∧ st2.tr.direction = .recvonly
       | none, .sendonly => res = .ok ∧ st2.tr.direction = .inactive
       | _, _ => res = .fail .invalidState ∧
           st2.tr.direction = exStateRecvonly.tr.direction) :=
  C4_direction_table exStateRecvonly (some 2) 0 rfl

/-- C9 counterexample: the stream-selection handler is not total — on the
message `{"rid": ""}` (empty identifier) it faults (`v.RID[0]` indexes an
empty string), instead of succeeding for every string as claimed. -/
theorem C9_counterexample : onRIDMessage [] = none := rfl

/-- C9 (amended): for every delivered stream-selection message whose `rid`
string is non-empty, the handler sets the selected stream id to exactly the
first byte of the string (and touches nothing else); on the empty string it
faults with an index-out-of-range panic rather than succeeding. -/
theorem C9_first_byte (b : Nat) (rest : List Nat) :
    onRIDMessage (b :: rest) = some b ∧ onRIDMessage [] = none :=
  ⟨rfl, rfl⟩

/-- C3 counterexample: in the echo relay's second `OnTrack` handler the
packet is written to `outputTrack2` (SSRC 7) but its SSRC field is set to
`outputTrack1.SSRC()` (5): the written SSRC differs from the SSRC of the
track it is written to. -/
theorem C3_counterexample :
    (onTrackEchoWrites exOut1 exOut2 [exPacket]).map
        (fun w => (w.1.ssrc, w.2.ssrc)) = [(7, 5)] ∧
      exOut2.ssrc ≠ exOut1.ssrc := by decide

/-- C3 (amended): the echo relay's packet pump forwards packets in arrival
order (the k-th write is the k-th arrival), writing every packet to the
handler's fixed output track, and every written packet's SSRC equals the
*first* outbound track's SSRC (`outputTrack1`), never rewritten to the SSRC
of the track actually written to. -/
theorem C3_echo_order_and_ssrc (out1 outT : OutTrack)
    (inbound : List RTPPacket) (k : Nat) (p : RTPPacket)
    (h : inbound[k]? = some p) :
    (onTrackEchoWrites out1 outT inbound).length = inbound.length ∧
    (onTrackEchoWrites out1 outT inbound)[k]? =
      some (outT, { p with ssrc := out1.ssrc }) := by
  refine ⟨by simp [onTrackEchoWrites], ?_⟩
  simp [onTrackEchoWrites, h]

/-- C3 witness: the amended claim at the concrete one-packet run. -/
theorem C3_echo_order_and_ssrc_witness :
    (onTrackEchoWrites exOut1 exOut2 [exPacket]).length = [exPacket].length ∧
    (onTrackEchoWrites exOut1 exOut2 [exPacket])[0]? =
      some (exOut2, { exPacket with ssrc := exOut1.ssrc }) :=
  C3_echo_order_and_ssrc exOut1 exOut2 [exPacket] 0 exPacket rfl

theorem consumerRun_length (s c i : Nat) (l : List RTPPacket) :
    (consumerRun s c i l).length = l.length := by
  induction l generalizing c i with
  | nil => rfl
  | cons p rest ih => simp [consumerRun, ih]

theorem consumerRun_getElem (s : Nat) (l : List RTPPacket) :
    ∀ (c i k : Nat) (p : RTPPacket), l[k]? = some p →
      (consumerRun s c i l)[k]? = some { p with
        timestamp := (c + ((l.take (k + 1)).map (fun q => q.timestamp)).sum) % 2 ^ 32,
        ssrc := s, sequenceNumber := (i + k) % 2 ^ 16,
        ext := false, extProfile := 0, extList := [] } := by
  induction l with
  | nil => intro c i k p h; simp at h
  | cons q rest ih =>
    intro c i k p h
    cases k with
    | zero =>
      simp only [List.getElem?_cons_zero, Option.some.injEq] at h
      subst h
      simp [consumerRun, consumerStep]
    | succ k =>
      simp only [List.getElem?_cons_succ] at h
      have hrec := ih ((c + q.timestamp) % 2 ^ 32) (i + 1) k p h
      simp only [consumerRun, consumerStep, List.getElem?_cons_succ,
        List.take_succ_cons, List.map_cons, List.sum_cons]
      rw [hrec, Nat.mod_add_mod]
      have h1 : i + 1 + k = i + (k + 1) := by omega
      have h2 : c + q.timestamp +
          ((rest.take (k + 1)).map (fun r => r.timestamp)).sum =
          c + (q.timestamp +
            ((rest.take (k + 1)).map (fun r => r.timestamp)).sum) := by
        omega
      rw [h1, h2]

/-- C8 counterexample: the consumer's output timestamps are *not*
non-decreasing in general: dequeued deltas 1 and `2 ^ 32 - 1` (a wrapped
`uint32` difference) produce output timestamps `[1, 0]`. -/
theorem C8_counterexample :
    (consumerRun 42 0 0 [exDeltaA, exDeltaB]).map (fun q => q.timestamp) =
      [1, 0] ∧
    ¬ List.Chain' (fun a b : Nat => a ≤ b)
        ((consumerRun 42 0 0 [exDeltaA, exDeltaB]).map (fun q => q.timestamp)) := by
  constructor
  · decide
  · intro hch
    have : List.Chain' (fun a b : Nat => a ≤ b) [1, 0] := by
      have heq : (consumerRun 42 0 0 [exDeltaA, exDeltaB]).map
          (fun q => q.timestamp) = [1, 0] := by decide
      rw [heq] at hch
      exact hch
    simp [List.chain'_cons] at this

/-- C8 (amended): in the simulcast consumer, each written packet's timestamp
equals the cumulative sum of the deltas dequeued so far *reduced modulo
`2 ^ 32`* (so timestamps are non-decreasing only while that 32-bit sum does
not wrap), its sequence number is the packet's index *modulo `2 ^ 16`* (so
they are contiguous increasing integers from the first emitted packet while
fewer than `2 ^ 16` packets have been emitted), its SSRC is the outbound
track's SSRC, and all RTP header extension fields are cleared; output order
matches dequeue order. -/
theorem C8_consumer_output (outSSRC : Nat) (inputs : List RTPPacket)
    (k : Nat) (p : RTPPacket) (h : inputs[k]? = some p) :
    (consumerRun outSSRC 0 0 inputs).length = inputs.length ∧
    (consumerRun outSSRC 0 0 inputs)[k]? = some { p with
      timestamp := ((inputs.take (k + 1)).map (fun q => q.timestamp)).sum % 2 ^ 32,
      ssrc := outSSRC, sequenceNumber := k % 2 ^ 16,
      ext := false, extProfile := 0, extList := [] } := by
  refine ⟨consumerRun_length outSSRC 0 0 inputs, ?_⟩
  have hg := consumerRun_getElem outSSRC inputs 0 0 k p h
  simpa using hg

/-- C8 witness: the amended claim at a concrete two-packet run. -/
theorem C8_consumer_output_witness :
    (consumerRun 42 0 0 [exDeltaA, exDeltaB]).length = [exDeltaA, exDeltaB].length ∧
    (consumerRun 42 0 0 [exDeltaA, exDeltaB])[1]? = some { exDeltaB with
      timestamp := (([exDeltaA, exDeltaB].take 2).map (fun q => q.timestamp)).sum % 2 ^ 32,
      ssrc := 42, sequenceNumber := 1 % 2 ^ 16,
      ext := false, extProfile := 0, extList := [] } :=
  C8_consumer_output 42 [exDeltaA, exDeltaB] 1 exDeltaB rfl

theorem pluckFirst_eq_specScan (k : RTPCodecType) (d : RTPTransceiverDirection)
    (pool : List RTPTransceiver) :
    pluckFirst k d pool = specScanPool k d pool := by
  induction pool with
  | nil => rfl
  | cons t rest ih =>
    by_cases hp : t.kind = k ∧ d = t.direction
    · have hb : (t.kind == k && t.direction == d) = true := by
        simp [hp.1, hp.2.symm]
      simp [pluckFirst, specScanPool, specFindIdx, hp, hb]
    · have hb : (t.kind == k && t.direction == d) = false := by
        rcases not_and_or.mp hp with h | h
        · simp [h]
        · have h2 : t.direction ≠ d := fun hh => h hh.symm
          simp [h2]
      simp only [pluckFirst, if_neg hp]
      rw [ih]
      simp only [specScanPool, specFindIdx, hb, Bool.false_eq_true, if_false]
      cases hf : specFindIdx (fun t => t.kind == k && t.direction == d) rest with
      | none => simp
      | some i =>
        cases hg : rest[i]? with
        | none => simp [hg]
        | some r => simp [hg]

theorem tryDirections_eq_spec (k : RTPCodecType) (pool : List RTPTransceiver)
    (ds : List RTPTransceiverDirection) :
    tryDirections k pool ds = specTryDirections k pool ds := by
  induction ds with
  | nil => rfl
  | cons d ds ih =>
    simp only [tryDirections, specTryDirections, pluckFirst_eq_specScan, ih]

theorem getPreferredDirections_eq_spec (rd : RTPTransceiverDirection) :
    getPreferredDirections rd = specPreferredDirections rd := by
  cases rd <;> rfl

/-- C6: `satisfyTypeAndDirection` computes exactly the matching procedure the
spec describes — preferred local-direction order from the remote direction,
first-match scan in pool order per preferred direction with the matched
element removed from the returned pool, and a fresh `inactive` transceiver of
the requested kind with the pool unmodified when nothing matches — and hence
is deterministic and total; in particular on the empty pool it returns the
synthesized inactive transceiver and the unchanged empty pool. -/
theorem C6_matcher (k : RTPCodecType) (rd : RTPTransceiverDirection)
    (pool : List RTPTransceiver) :
    satisfyTypeAndDirection k rd pool = specMatch k rd pool ∧
    satisfyTypeAndDirection k rd [] = (newInactiveTransceiver k, []) := by
  constructor
  · unfold satisfyTypeAndDirection specMatch
    rw [getPreferredDirections_eq_spec, tryDirections_eq_spec]
  · cases rd <;> rfl

/-- C1 counterexample: on a `recvonly` (not actively sending) transceiver,
`replaceTrack` with a kind-matching *inbound* (receiver-bound) track succeeds
and installs the inbound track as the sender's bound track — the
remote-track check runs only on the actively-sending path. -/
theorem C1_counterexample :
    (replaceTrack exStateRecvonly (some 1) true).map
        (fun r => (r.1, (r.2.senders 0).track)) = some (Res.ok, some 1) ∧
    (exStateRecvonly.tracks 1).hasReceiver = true ∧
    exStateRecvonly.tr.sender = some 0 := by decide

/-- C1 (amended): an inbound (receiver-bound) track is never installed as the
sender's bound track *while the transceiver is actively sending* (direction
`sendrecv` or `sendonly`): such a `replaceTrack` call fails with an error and
leaves the state unchanged; on the non-sending directions the call does not
check for inbound tracks and may install one. -/
theorem C1_no_inbound_swap_while_sending (st : NegotiationState)
    (tid : TrackId) (stopOk : Bool) (res : Res) (st2 : NegotiationState)
    (hin : (st.tracks tid).hasReceiver = true)
    (hdir : st.tr.direction = .sendrecv ∨ st.tr.direction = .sendonly)
    (h : replaceTrack st (some tid) stopOk = some (res, st2)) :
    (∃ e, res = .fail e) ∧ st2 = st := by
  rcases hdir with h1 | h1 <;>
    cases hs : st.tr.sender <;>
      by_cases hk : (st.tracks tid).kind = st.tr.kind <;>
        by_cases hstop : st.tr.stopped = true <;>
          simp only [replaceTrack, h1, hs, hk, hstop, hin, Option.any_some,
            bne_iff_ne, ne_eq, not_true_eq_false, not_false_eq_true,
            if_true, if_false, ite_true, ite_false, reduceCtorEq,
            and_self, and_false, false_and, not_and, if_neg, if_pos] at h <;>
          (cases h; exact ⟨⟨_, rfl⟩, rfl⟩)

theorem setSendingTrack_tracks (st : NegotiationState) (track : Option TrackId)
    (res : Res) (st2 : NegotiationState)
    (h : setSendingTrack st track = some (res, st2)) : st2.tracks = st.tracks := by
  cases hs : st.tr.sender with
  | none => simp [setSendingTrack, hs] at h
  | some sid =>
    revert h
    cases track <;> cases hdir : st.tr.direction <;> intro h <;>
      simp [setSendingTrack, setSender, hs, hdir] at h <;>
      (obtain ⟨h1, h2⟩ := h; subst h2; rfl)

theorem setSendingTrack_fail (st : NegotiationState) (track : Option TrackId)
    (st2 : NegotiationState) (e : RErr)
    (h : setSendingTrack st track = some (.fail e, st2)) :
    e = .invalidState ∧ st2.tr.direction = st.tr.direction ∧
    st2.tracks = st.tracks ∧
    ∃ sid, st.tr.sender = some sid ∧ (st2.senders sid).track = track ∧
      (track = none → st2.tr.sender = none) := by
  cases hs : st.tr.sender with
  | none => simp [setSendingTrack, hs] at h
  | some sid =>
    revert h
    cases track <;> cases hdir : st.tr.direction <;> intro h <;>
      simp [setSendingTrack, setSender, hs, hdir] at h <;>
      (obtain ⟨h1, h2⟩ := h; subst h1; subst h2;
       exact ⟨rfl, by first | rfl | rw [hdir], rfl, sid, rfl, by simp [setFn], by simp⟩)

theorem setSendingTrack_none_sending_ok (st : NegotiationState) (sid : SenderId)
    (hs : st.tr.sender = some sid)
    (hdir : st.tr.direction = .sendrecv ∨ st.tr.direction = .sendonly) :
    ∃ st2, setSendingTrack st none = some (.ok, st2) := by
  rcases hdir with h1 | h1 <;>
    simp [setSendingTrack, setSender, hs, h1]

theorem replaceTrack_fail_state (st : NegotiationState) (track : Option TrackId)
    (stopOk : Bool) (st2 : NegotiationState) (e : RErr)
    (h : replaceTrack st track stopOk = some (.fail e, st2)) :
    (e = .typeMismatch ∨ e = .renegotiationRequired → st2 = st) ∧
    (e = .invalidState →
      st2.tr.direction = st.tr.direction ∧ st2.tracks = st.tracks ∧
      (st.tr.stopped = true → st2 = st) ∧
      (st.tr.stopped = false → ∃ sid, st.tr.sender = some sid ∧
        (st2.senders sid).track = track ∧
        (track = none → st2.tr.sender = none))) := by
  unfold replaceTrack at h
  by_cases hk : (track.any fun tid => (st.tracks tid).kind != st.tr.kind) = true
  · rw [if_pos hk] at h
    cases h
    exact ⟨fun _ => rfl, fun he => absurd he (by simp)⟩
  · rw [if_neg hk] at h
    by_cases hstop : st.tr.stopped = true
    · rw [if_pos hstop] at h
      cases h
      refine ⟨fun _ => rfl, fun _ => ⟨rfl, rfl, fun _ => rfl, fun hns => ?_⟩⟩
      rw [hns] at hstop
      exact absurd hstop (by simp)
    · rw [if_neg hstop] at h
      by_cases hdir : st.tr.direction ≠ .sendrecv ∧ st.tr.direction ≠ .sendonly
      · rw [if_pos hdir] at h
        obtain ⟨he, hdir2, htracks, sid, hsid, htrk, hnil⟩ :=
          setSendingTrack_fail st track st2 e h
        subst he
        refine ⟨fun hc => ?_, fun _ => ⟨hdir2, htracks, fun h2 => absurd h2 hstop,
          fun _ => ⟨sid, hsid, htrk, hnil⟩⟩⟩
        rcases hc with hc | hc <;> exact absurd hc (by simp)
      · rw [if_neg hdir] at h
        have hdirOr : st.tr.direction = .sendrecv ∨ st.tr.direction = .sendonly := by
          rcases not_and_or.mp hdir with h1 | h1
          · exact Or.inl (not_ne_iff.mp h1)
          · exact Or.inr (not_ne_iff.mp h1)
        revert h
        cases track with
        | none =>
          cases hs : st.tr.sender with
          | none => intro h; simp [hs] at h
          | some sid0 =>
            cases stopOk with
            | false =>
              intro h
              simp only [hs, senderStopResult, Bool.false_eq_true, if_false] at h
              cases h
              exact ⟨fun _ => rfl, fun he => absurd he (by simp)⟩
            | true =>
              intro h
              simp only [hs, senderStopResult, if_true] at h
              obtain ⟨st3, hok⟩ := setSendingTrack_none_sending_ok st sid0 hs hdirOr
              rw [hok] at h
              exact absurd h (by simp)
        | some tid =>
          cases hs : st.tr.sender with
          | none => intro h; simp [hs] at h
          | some sid =>
            intro h
            simp only [hs] at h
            by_cases hrecv : (st.tracks tid).hasReceiver = true
            · rw [if_pos hrecv] at h
              cases h
              exact ⟨fun _ => rfl, fun he => absurd he (by simp)⟩
            · rw [if_neg hrecv] at h
              revert h
              cases hold : (st.senders sid).track with
              | none =>
                intro h
                simp at h
              | some oldId =>
                intro h
                simp only [ne_eq] at h
                by_cases hmime : (st.tracks oldId).mimeType = (st.tracks tid).mimeType
                · rw [if_neg (not_not_intro hmime)] at h
                  by_cases hlen : (st.tracks oldId).activeSenders.length = 0
                  · rw [if_pos hlen] at h
                    simp at h
                  · rw [if_neg hlen] at h
                    simp at h
                · rw [if_pos hmime] at h
                  cases h
                  exact ⟨fun _ => rfl, fun he => absurd he (by simp)⟩

/-- C2 counterexample: `replaceTrack(nil)` on a non-stopped `recvonly`
transceiver returns an InvalidState error, yet the shared state *was*
mutated by the call: the sender slot was cleared (it was sender 0) and the
sender's bound track was overwritten to nil — `setSendingTrack` performs its
field writes before checking the transition table. -/
theorem C2_counterexample :
    (replaceTrack exStateRecvonly none true).map
        (fun r => (r.1, r.2.tr.sender, (r.2.senders 0).track)) =
      some (Res.fail RErr.invalidState, none, none) ∧
    exStateRecvonly.tr.sender = some 0 ∧
    (exStateRecvonly.senders 0).track = some 0 := by decide

/-- C2 (amended): calls to `replaceTrack`/`setSendingTrack` that return a
TypeMismatch or RenegotiationRequired error leave the entire state unchanged,
and so does an InvalidState error from a stopped transceiver; but an
InvalidState error arising from the §4.1 direction-transition table, while
leaving the direction and every Track's active-sender set and count
unchanged, has already overwritten the Sender's bound track with the argument
and, when the argument is null, cleared the sender slot. -/
theorem C2_error_state :
    (∀ (st : NegotiationState) (track : Option TrackId) (stopOk : Bool)
        (st2 : NegotiationState) (e : RErr),
      replaceTrack st track stopOk = some (.fail e, st2) →
      (e = .typeMismatch ∨ e = .renegotiationRequired → st2 = st) ∧
      (e = .invalidState → st2.tr.direction = st.tr.direction ∧
        st2.tracks = st.tracks ∧ (st.tr.stopped = true → st2 = st) ∧
        (st.tr.stopped = false → ∃ sid, st.tr.sender = some sid ∧
          (st2.senders sid).track = track ∧
          (track = none → st2.tr.sender = none)))) ∧
    (∀ (st : NegotiationState) (track : Option TrackId)
        (st2 : NegotiationState) (e : RErr),
      setSendingTrack st track = some (.fail e, st2) →
      e = .invalidState ∧ st2.tr.direction = st.tr.direction ∧
      st2.tracks = st.tracks ∧ ∃ sid, st.tr.sender = some sid ∧
        (st2.senders sid).track = track ∧
        (track = none → st2.tr.sender = none)) :=
  ⟨fun st track stopOk st2 e h => replaceTrack_fail_state st track stopOk st2 e h,
   fun st track st2 e h => setSendingTrack_fail st track st2 e h⟩

/-- C2 witness: the amended claim applied to the concrete InvalidState-
returning `replaceTrack(nil)` call on `exStateRecvonly`. -/
theorem C2_error_state_witness :
    (RErr.invalidState = RErr.typeMismatch ∨
        RErr.invalidState = RErr.renegotiationRequired →
      exAfterNil = exStateRecvonly) ∧
    (RErr.invalidState = RErr.invalidState →
      exAfterNil.tr.direction = exStateRecvonly.tr.direction ∧
      exAfterNil.tracks = exStateRecvonly.tracks ∧
      (exStateRecvonly.tr.stopped = true → exAfterNil = exStateRecvonly) ∧
      (exStateRecvonly.tr.stopped = false →
        ∃ sid, exStateRecvonly.tr.sender = some sid ∧
          (exAfterNil.senders sid).track = none ∧
          ((none : Option TrackId) = none → exAfterNil.tr.sender = none))) :=
  C2_error_state.1 exStateRecvonly none true exAfterNil RErr.invalidState rfl

/-- C1 witness: the amended claim at the concrete actively-sending state with
the inbound track 1. -/
theorem C1_no_inbound_swap_while_sending_witness :
    (∃ e, Res.fail RErr.remoteTrack = Res.fail e) ∧
    exStateSendrecv = exStateSendrecv :=
  C1_no_inbound_swap_while_sending exStateSendrecv 1 true
    (Res.fail RErr.remoteTrack) exStateSendrecv rfl (Or.inl rfl) rfl

theorem filter_bne_length_add_count (l : List SenderId) (x : SenderId) :
    (l.filter (fun s => s != x)).length + l.count x = l.length := by
  induction l with
  | nil => rfl
  | cons a t ih =>
    simp only [List.filter_cons, List.count_cons]
    by_cases hax : a = x
    · subst hax
      simp only [bne_self_eq_false, beq_self_eq_true, if_true, if_false,
        ite_true, ite_false, Bool.false_eq_true, List.length_cons]
      omega
    · have h1 : (a != x) = true := by simp [hax]
      have h2 : (a == x) = false := by simp [hax]
      simp only [h1, h2, if_true, if_false, ite_true, ite_false,
        List.length_cons, Bool.false_eq_true]
      omega

/-- C7: the outbound-track invariant `totalSenderCount == |activeSenders|`
(which also makes the count non-negative) holds after every returning
`replaceTrack` call whenever it held before — it is preserved by every path,
error or success, of `replaceTrack` and of the `setSendingTrack` it calls. -/
theorem C7_sender_count_invariant (st : NegotiationState)
    (track : Option TrackId) (stopOk : Bool) (res : Res)
    (st2 : NegotiationState) (hinv : tracksInvariant st)
    (h : replaceTrack st track stopOk = some (res, st2)) :
    tracksInvariant st2 ∧ ∀ tid, 0 ≤ (st2.tracks tid).totalSenderCount := by
  suffices hmain : tracksInvariant st2 by
    exact ⟨hmain, fun tid => by rw [hmain tid]; exact Int.natCast_nonneg _⟩
  unfold replaceTrack at h
  by_cases hk : (track.any fun tid => (st.tracks tid).kind != st.tr.kind) = true
  · rw [if_pos hk] at h
    cases h
    exact hinv
  · rw [if_neg hk] at h
    by_cases hstop : st.tr.stopped = true
    · rw [if_pos hstop] at h
      cases h
      exact hinv
    · rw [if_neg hstop] at h
      by_cases hdir : st.tr.direction ≠ .sendrecv ∧ st.tr.direction ≠ .sendonly
      · rw [if_pos hdir] at h
        have htr := setSendingTrack_tracks st track res st2 h
        intro tid
        rw [htr]
        exact hinv tid
      · rw [if_neg hdir] at h
        revert h
        cases track with
        | none =>
          cases hs : st.tr.sender with
          | none => intro h; simp at h
          | some sid0 =>
            cases stopOk with
            | false =>
              intro h
              simp only [senderStopResult, Bool.false_eq_true, if_false,
                ite_false] at h
              cases h
              exact hinv
            | true =>
              intro h
              simp only [senderStopResult, if_true, ite_true] at h
              have htr := setSendingTrack_tracks st none res st2 h
              intro tid
              rw [htr]
              exact hinv tid
        | some tid =>
          cases hs : st.tr.sender with
          | none => intro h; simp at h
          | some sid =>
            intro h
            simp only at h
            by_cases hrecv2 : (st.tracks tid).hasReceiver = true
            · rw [if_pos hrecv2] at h
              cases h
              exact hinv
            · rw [if_neg hrecv2] at h
              revert h
              cases hold : (st.senders sid).track with
              | none =>
                intro h
                cases h
                intro t
                by_cases ht : t = tid
                · subst ht
                  have hi := hinv t
                  simp only [setFn_same, List.length_append,
                    List.length_cons, List.length_nil]
                  omega
                · simp only [setFn_other _ _ _ _ ht]
                  exact hinv t
              | some oldId =>
                intro h
                simp only [ne_eq] at h
                by_cases hmime : (st.tracks oldId).mimeType = (st.tracks tid).mimeType
                · rw [if_neg (not_not_intro hmime)] at h
                  by_cases hlen : (st.tracks oldId).activeSenders.length = 0
                  · rw [if_pos hlen] at h
                    simp at h
                  · rw [if_neg hlen] at h
                    cases h
                    have hfl := filter_bne_length_add_count
                      (st.tracks oldId).activeSenders sid
                    have hio := hinv oldId
                    intro t
                    by_cases ht : t = tid
                    · subst ht
                      have hit := hinv t
                      by_cases hto : t = oldId
                      · subst hto
                        simp only [setFn_same, List.length_append,
                          List.length_cons, List.length_nil]
                        omega
                      · simp only [setFn_same, setFn_other _ _ _ _ hto,
                          List.length_append, List.length_cons, List.length_nil]
                        omega
                    · by_cases hto : t = oldId
                      · subst hto
                        simp only [setFn_other _ _ _ _ ht, setFn_same]
                        omega
                      · simp only [setFn_other _ _ _ _ ht,
                          setFn_other _ _ _ _ hto]
                        exact hinv t
                · rw [if_pos hmime] at h
                  cases h
                  exact hinv

/-- C7 witness: the invariant holds across the concrete successful swap
`replaceTrack(track 2)` on `exStateSendrecv`. -/
theorem C7_sender_count_invariant_witness :
    tracksInvariant exAfterSwap ∧
    ∀ tid, 0 ≤ (exAfterSwap.tracks tid).totalSenderCount :=
  C7_sender_count_invariant exStateSendrecv (some 2) true Res.ok exAfterSwap
    (by intro tid
        simp only [tracksInvariant, exStateSendrecv, exTracks]
        split_ifs <;> decide)
    rfl

/-- C5: on a non-stopped, actively-sending transceiver, with a non-null,
kind-matching, non-inbound new track and a sender currently bound to a
(distinct) old track that contains it once in its active-sender set:
if the two tracks' codec MIME types differ the call fails with
RenegotiationRequired and changes nothing; otherwise the sender is removed
from the old track's active-sender set (count decremented), rebound to the
new track, appended to the new track's active-sender set (count
incremented), and the direction is unchanged. -/
theorem C5_mime_check_and_swap (st : NegotiationState) (tid oldId : TrackId)
    (sid : SenderId) (stopOk : Bool)
    (hdir : st.tr.direction = .sendrecv ∨ st.tr.direction = .sendonly)
    (hstop : st.tr.stopped = false)
    (hkind : (st.tracks tid).kind = st.tr.kind)
    (hrecv : (st.tracks tid).hasReceiver = false)
    (hsender : st.tr.sender = some sid)
    (hbound : (st.senders sid).track = some oldId)
    (hne : oldId ≠ tid)
    (hocc : (st.tracks oldId).activeSenders.count sid = 1) :
    ((st.tracks oldId).mimeType ≠ (st.tracks tid).mimeType →
      replaceTrack st (some tid) stopOk =
        some (.fail .renegotiationRequired, st)) ∧
    ((st.tracks oldId).mimeType = (st.tracks tid).mimeType →
      ∃ st2, replaceTrack st (some tid) stopOk = some (.ok, st2) ∧
        st2.tr.direction = st.tr.direction ∧
        (st2.senders sid).track = some tid ∧
        (st2.tracks oldId).activeSenders =
          (st.tracks oldId).activeSenders.filter (fun s => s != sid) ∧
        sid ∉ (st2.tracks oldId).activeSenders ∧
        (st2.tracks oldId).totalSenderCount =
          (st.tracks oldId).totalSenderCount - 1 ∧
        (st2.tracks tid).activeSenders =
          (st.tracks tid).activeSenders ++ [sid] ∧
        (st2.tracks tid).totalSenderCount =
          (st.tracks tid).totalSenderCount + 1) := by
  have hkb : ¬((some tid).any fun t2 => (st.tracks t2).kind != st.tr.kind) = true := by
    simp [hkind]
  have hsb : ¬st.tr.stopped = true := by simp [hstop]
  have hdb : ¬(st.tr.direction ≠ .sendrecv ∧ st.tr.direction ≠ .sendonly) := by
    rcases hdir with h1 | h1 <;> simp [h1]
  have hrb : ¬(st.tracks tid).hasReceiver = true := by simp [hrecv]
  have hlen : ¬(st.tracks oldId).activeSenders.length = 0 := by
    intro h0
    rw [List.length_eq_zero] at h0
    rw [h0] at hocc
    simp at hocc
  constructor
  · intro hmime
    unfold replaceTrack
    rw [if_neg hkb, if_neg hsb, if_neg hdb]
    simp only [hsender]
    rw [if_neg hrb]
    simp only [hbound, ne_eq]
    rw [if_pos hmime]
  · intro hmime
    unfold replaceTrack
    rw [if_neg hkb, if_neg hsb, if_neg hdb]
    simp only [hsender]
    rw [if_neg hrb]
    simp only [hbound, ne_eq]
    rw [if_neg (not_not_intro hmime), if_neg hlen]
    refine ⟨_, rfl, rfl, ?_, ?_, ?_, ?_, ?_, ?_⟩
    · simp [setFn]
    · simp [setFn, hne, hne.symm]
    · simp [setFn, hne, hne.symm, List.mem_filter]
    · simp [setFn, hne, hne.symm, hocc]
    · simp [setFn, hne, hne.symm]
    · simp [setFn, hne, hne.symm]

/-- C5 witness: the amended setup instantiated at the concrete sendrecv state
(sender 0 bound to track 0, new track 2, both VP8). -/
theorem C5_mime_check_and_swap_witness :
    ((exStateSendrecv.tracks 0).mimeType ≠ (exStateSendrecv.tracks 2).mimeType →
      replaceTrack exStateSendrecv (some 2) true =
        some (.fail .renegotiationRequired, exStateSendrecv)) ∧
    ((exStateSendrecv.tracks 0).mimeType = (exStateSendrecv.tracks 2).mimeType →
      ∃ st2, replaceTrack exStateSendrecv (some 2) true = some (.ok, st2) ∧
        st2.tr.direction = exStateSendrecv.tr.direction ∧
        (st2.senders 0).track = some 2 ∧
        (st2.tracks 0).activeSenders =
          (exStateSendrecv.tracks 0).activeSenders.filter (fun s => s != 0) ∧
        0 ∉ (st2.tracks 0).activeSenders ∧
        (st2.tracks 0).totalSenderCount =
          (exStateSendrecv.tracks 0).totalSenderCount - 1 ∧
        (st2.tracks 2).activeSenders =
          (exStateSendrecv.tracks 2).activeSenders ++ [0] ∧
        (st2.tracks 2).totalSenderCount =
          (exStateSendrecv.tracks 2).totalSenderCount + 1) :=
  C5_mime_check_and_swap exStateSendrecv 2 0 0 true (Or.inl rfl) rfl rfl rfl
    rfl rfl (by decide) (by decide)

theorem u32sub_int (a b : Nat) :
    ((u32sub a b : Nat) : Int) = ((a : Int) - (b : Int)) % 2 ^ 32 := by
  unfold u32sub
  omega

theorem simulcastPumpRun_characterization (extId rid : Nat)
    (inputs : List RTPPacket) :
    ∀ (ps psF : PumpState) (outs : List RTPPacket),
    simulcastPumpRun extId rid ps inputs = some (psF, outs) →
    outs = (deltaRewrite ps.lastTimestamp inputs).filter (ridMatches extId rid) ∧
    psF.lastTimestamp = inputs.foldl (fun _ p => p.timestamp) ps.lastTimestamp := by
  induction inputs with
  | nil =>
    intro ps psF outs h
    simp only [simulcastPumpRun, Option.some.injEq, Prod.mk.injEq] at h
    obtain ⟨h1, h2⟩ := h
    subst h1
    subst h2
    simp [deltaRewrite]
  | cons p rest ih =>
    intro ps psF outs h
    simp only [simulcastPumpRun, simulcastPumpStep] at h
    cases hext : p.getExt extId with
    | nil =>
      rw [hext] at h
      simp at h
    | cons b bs =>
      rw [hext] at h
      simp only at h
      have hpred : ridMatches extId rid
          { p with timestamp := if ps.lastTimestamp = 0 then 0 else u32sub p.timestamp ps.lastTimestamp } =
            (b == rid) := by
        simp only [ridMatches, RTPPacket.getExt]
        simp only [RTPPacket.getExt] at hext
        rw [hext]
      by_cases hb : b = rid
      · rw [if_neg (not_not_intro hb)] at h
        cases hcur : ps.isCurrTrack with
        | true =>
          rw [if_pos hcur] at h
          simp only at h
          cases hrun : simulcastPumpRun extId rid
              { lastTimestamp := p.timestamp, isCurrTrack := true } rest with
          | none =>
            rw [hrun] at h
            simp at h
          | some pr =>
            obtain ⟨psX, outsX⟩ := pr
            rw [hrun] at h
            simp only [Option.toList, List.singleton_append,
              Option.some.injEq, Prod.mk.injEq] at h
            obtain ⟨h3, h4⟩ := h
            subst h3
            subst h4
            obtain ⟨ih1, ih2⟩ := ih
              { lastTimestamp := p.timestamp, isCurrTrack := true } psX outsX hrun
            refine ⟨?_, by simpa using ih2⟩
            simp only [deltaRewrite, List.filter_cons, hpred, hb,
              beq_self_eq_true, if_true, ite_true]
            exact congrArg _ ih1
        | false =>
          rw [if_neg (by simp [hcur])] at h
          simp only at h
          cases hrun : simulcastPumpRun extId rid
              { lastTimestamp := p.timestamp, isCurrTrack := true } rest with
          | none =>
            rw [hrun] at h
            simp at h
          | some pr =>
            obtain ⟨psX, outsX⟩ := pr
            rw [hrun] at h
            simp only [Option.toList, List.singleton_append,
              Option.some.injEq, Prod.mk.injEq] at h
            obtain ⟨h3, h4⟩ := h
            subst h3
            subst h4
            obtain ⟨ih1, ih2⟩ := ih
              { lastTimestamp := p.timestamp, isCurrTrack := true } psX outsX hrun
            refine ⟨?_, by simpa using ih2⟩
            simp only [deltaRewrite, List.filter_cons, hpred, hb,
              beq_self_eq_true, if_true, ite_true]
            exact congrArg _ ih1
      · rw [if_pos hb] at h
        simp only at h
        cases hrun : simulcastPumpRun extId rid
            { lastTimestamp := p.timestamp, isCurrTrack := false } rest with
        | none =>
          rw [hrun] at h
          simp at h
        | some pr =>
          obtain ⟨psX, outsX⟩ := pr
          rw [hrun] at h
          simp only [Option.toList, List.nil_append,
            Option.some.injEq, Prod.mk.injEq] at h
          obtain ⟨h3, h4⟩ := h
          subst h3
          subst h4
          obtain ⟨ih1, ih2⟩ := ih
            { lastTimestamp := p.timestamp, isCurrTrack := false } psX outsX hrun
          refine ⟨?_, by simpa using ih2⟩
          have hfalse : (b == rid) = false := by simp [hb]
          simp only [deltaRewrite, List.filter_cons, hpred, hfalse,
            Bool.false_eq_true, if_false, ite_false]
          exact ih1

/-- C10: in the simulcast pump, every received packet's timestamp is
rewritten to `0` when the stored previous original timestamp is `0` (true
before the first packet and after any packet whose original timestamp was
literally `0`), and otherwise to the 32-bit wrapping difference from the
previous original timestamp (`(orig - prev) mod 2^32`, as the `u32sub`/`Int`
identity below states); the stored previous original timestamp is updated for
every received packet — dropped or forwarded — so the forwarded packets are
exactly the stream-id matches of the `deltaRewrite` sequence, whose deltas
are taken from the immediately preceding received packet on the track. -/
theorem C10_timestamp_delta_rewrite (ridExtId rid : Nat)
    (inputs : List RTPPacket) (psF : PumpState) (outs : List RTPPacket)
    (h : simulcastPumpRun ridExtId rid
        { lastTimestamp := 0, isCurrTrack := false } inputs = some (psF, outs)) :
    outs = (deltaRewrite 0 inputs).filter (ridMatches ridExtId rid) ∧
    psF.lastTimestamp = lastOriginalTimestamp 0 inputs ∧
    ∀ a b : Nat, ((u32sub a b : Nat) : Int) = ((a : Int) - (b : Int)) % 2 ^ 32 := by
  obtain ⟨h1, h2⟩ := simulcastPumpRun_characterization ridExtId rid inputs
    { lastTimestamp := 0, isCurrTrack := false } psF outs h
  exact ⟨h1, h2, u32sub_int⟩

/-- C10 witness: the concrete three-packet run (streams 97, 98, 97; the
middle packet is dropped but still advances the stored timestamp). -/
theorem C10_timestamp_delta_rewrite_witness :
    exPumpAfter.2 =
      (deltaRewrite 0 [exSimPacketA, exSimPacketB, exSimPacketC]).filter
        (ridMatches 5 97) ∧
    exPumpAfter.1.lastTimestamp =
      lastOriginalTimestamp 0 [exSimPacketA, exSimPacketB, exSimPacketC] ∧
    ∀ a b : Nat, ((u32sub a b : Nat) : Int) = ((a : Int) - (b : Int)) % 2 ^ 32 :=
  C10_timestamp_delta_rewrite 5 97 [exSimPacketA, exSimPacketB, exSimPacketC]
    exPumpAfter.1 exPumpAfter.2 rfl

end Webrtc
